import Mathlib

/-!
Verification of the daemon-merging automation against its design
specification.  The development shallowly embeds the two source files
(src/helpers/github.ts and src/helpers/update-pull-requests.ts): network
and storage effects become explicit oracle values of type Except, and the
observable side effects of a run (tracked-list deletions, merge API calls,
log lines) are collected into an explicit action trace.
-/

namespace DaemonMerging

/-- Observable side effects of one orchestrator run.  Log payloads are kept
as the fixed leading text of the source message; interpolated values that
no property depends on (dates, JSON renderings) are omitted. -/
inductive Action where
  | deleteTracked (url : String)
  | mergeCall (owner repo : String) (issue_number : Option Nat)
  | logInfo (msg : String)
  | logError (msg : String)
  | logDebug (msg : String)
deriving DecidableEq

/-- Result record of parseGitHubUrl (github.ts lines 4-14).  The
issue_number field holds the JS Number conversion of the fourth path
segment, with none standing for NaN. -/
structure IssueParams where
  owner : String
  repo : String
  issue_number : Option Nat
deriving DecidableEq

/-- Decimal digit accumulator for the Number model. -/
def jsNumberAux : List Char → Nat → Option Nat
  | [], acc => some acc
  | c :: rest, acc =>
    if c.isDigit then jsNumberAux rest (10 * acc + (c.toNat - 48)) else none

/-- Modelled from the spec: the JS Number conversion applied to a path
segment (a platform builtin, not in src/), restricted to the cases the
parser meets: the empty string converts to 0, strings of decimal digits to
their value, and none models NaN for everything else. -/
def jsNumber (s : String) : Option Nat :=
  jsNumberAux s.toList 0

/-- Single-character splitter over character lists, the model of the JS
String split method with a one-character separator, as applied to URL
paths and watch targets. -/
def splitChar (sep : Char) : List Char → List (List Char)
  | [] => [[]]
  | a :: rest =>
    let r := splitChar sep rest
    if a = sep then [] :: r
    else
      match r with
      | [] => [[a]]
      | h :: t => (a :: h) :: t

/-- Split a string on a separator character, as JS split does: the result
always has at least one element, and separators at the edges produce empty
segments. -/
def jsSplit (sep : Char) (s : String) : List String :=
  (splitChar sep s.toList).map String.mk

/-- Skip forward to the character position right after the first scheme
separator, none when the URL has no scheme separator. -/
def dropScheme : List Char → Option (List Char)
  | [] => none
  | ':' :: '/' :: '/' :: rest => some rest
  | _ :: rest => dropScheme rest

/-- Modelled from the spec: the pathname of the WHATWG URL constructor
(new URL(url).pathname, a platform builtin, not in src/), restricted to
plain http(s) URLs: the text after scheme and host, query and fragment
stripped; none models the constructor throwing. -/
def urlPathname (url : String) : Option String :=
  match dropScheme url.toList with
  | none => none
  | some rest =>
    let noFrag := rest.takeWhile (fun c => c ≠ '#')
    let noQuery := noFrag.takeWhile (fun c => c ≠ '?')
    match noQuery.dropWhile (fun c => c ≠ '/') with
    | [] => some "/"
    | path => some (String.mk path)

/-- Embedding of parseGitHubUrl (github.ts lines 4-14): split the pathname
on slashes, demand exactly 5 segments, and read owner, repo and issue
number from segments 1, 2 and 4. -/
def parseGitHubUrl (url : String) : Except String IssueParams :=
  match urlPathname url with
  | none => Except.error ("TypeError: Invalid URL: " ++ url)
  | some pathname =>
    let path := jsSplit '/' pathname
    if path.length ≠ 5 then
      Except.error ("[parseGitHubUrl] Invalid url: [" ++ url ++ "]")
    else
      Except.ok
        { owner := path.getD 1 "", repo := path.getD 2 "",
          issue_number := jsNumber (path.getD 4 "") }

/-- Requirements record (github.ts lines 17-20). -/
structure Requirements where
  mergeTimeout : String
  requiredApprovalCount : Nat
deriving DecidableEq

/-- Per-association merge timeout configuration (context.config.mergeTimeout). -/
structure MergeTimeouts where
  collaborator : String
  contributor : String

/-- Per-association approval count configuration (context.config.approvalsRequired). -/
structure ApprovalsRequired where
  collaborator : Nat
  contributor : Nat

/-- Plugin configuration consumed by the embedded code. -/
structure Config where
  mergeTimeout : MergeTimeouts
  approvalsRequired : ApprovalsRequired

/-- Embedding of getMergeTimeoutAndApprovalRequiredCount (github.ts lines
26-36): collaborator values for COLLABORATOR, MEMBER and OWNER
associations, contributor values otherwise. -/
def getMergeTimeoutAndApprovalRequiredCount (cfg : Config) (authorAssociation : String) : Requirements :=
  let timeoutCollaborator : Requirements :=
    { mergeTimeout := cfg.mergeTimeout.collaborator,
      requiredApprovalCount := cfg.approvalsRequired.collaborator }
  let timeoutContributor : Requirements :=
    { mergeTimeout := cfg.mergeTimeout.contributor,
      requiredApprovalCount := cfg.approvalsRequired.contributor }
  if ["COLLABORATOR", "MEMBER", "OWNER"].contains authorAssociation then
    timeoutCollaborator
  else
    timeoutContributor

/-- Review record: only the state field is consumed (github.ts line 45). -/
structure Review where
  state : String
deriving DecidableEq

/-- Embedding of getApprovalCount (github.ts lines 38-50).  The review
fetch is an oracle value; a fetch failure is caught, logged and collapsed
to the count 0.  The function is total: no exception reaches the caller. -/
def getApprovalCount (reviews : Except String (List Review)) : List Action × Nat :=
  match reviews with
  | Except.ok rs => ([], (rs.filter (fun review => review.state == "APPROVED")).length)
  | Except.error _ => ([Action.logError "Error fetching reviews approvals"], 0)

/-- Check suite record: only the id is consumed by the embedded code. -/
structure CheckSuite where
  id : Nat
deriving DecidableEq

/-- Check run record: the fields consumed by isCiGreen (github.ts lines
76-83).  conclusion is nullable in the hosting API, hence an Option. -/
structure CheckRun where
  name : String
  status : String
  conclusion : Option String
deriving DecidableEq

/-- Verdict of one polling attempt over the fetched check runs of all
suites, in suite order (github.ts lines 75-88): for each suite the runs
whose name differs from the automation workflow name are inspected; a
not-yet-completed run makes the whole attempt indeterminate (none), else a
run concluded failure yields some false; if no suite decides, some true. -/
def suitesVerdict (workflowName : String) : List (List CheckRun) → Option Bool
  | [] => some true
  | checkResult :: rest =>
    let filteredResults := checkResult.filter (fun o => o.name != workflowName)
    if filteredResults.any (fun o => o.status != "completed") then none
    else if filteredResults.any (fun o => o.conclusion == some "failure") then some false
    else suitesVerdict workflowName rest

/-- Local verdict of a single suite, used to characterise suitesVerdict:
some none when the suite has a non-self incomplete run, some (some false)
when it has a non-self failed run, none when the suite does not decide. -/
def suiteDecision (workflowName : String) (checkResult : List CheckRun) : Option (Option Bool) :=
  let filteredResults := checkResult.filter (fun o => o.name != workflowName)
  if filteredResults.any (fun o => o.status != "completed") then some none
  else if filteredResults.any (fun o => o.conclusion == some "failure") then some (some false)
  else none

/-- One polling attempt of isCiGreen (github.ts lines 62-88): fetch the
check runs of every suite (Promise.all: any rejection rejects the whole
attempt) and compute the verdict. -/
def ciAttempt (workflowName : String) (checkSuites : List CheckSuite)
    (fetchRuns : CheckSuite → Except String (List CheckRun)) : Except String (Option Bool) :=
  match checkSuites.mapM fetchRuns with
  | Except.error e => Except.error e
  | Except.ok checkResults => Except.ok (suitesVerdict workflowName checkResults)

/-- Fixed delay between polling attempts in milliseconds (github.ts line 98). -/
def retryDelayMs : Nat := 60000

/-- Maximum number of polling attempts (github.ts line 97). -/
def retryMaxTry : Nat := 100

/-- Modelled from the spec: the retryAsync helper of the external ts-retry
dependency (not under src/), per the spec retry policy: run the attempt,
stop when the until predicate accepts the result, otherwise wait the fixed
delay and retry, at most maxTry attempts in total; when attempts exhaust
the last result is returned (the last error is rethrown).  The embedding
returns the full attempt trace, the accumulated waiting time in
milliseconds, and the final outcome; the attempt function is indexed by
the attempt number so that the polled state may change between attempts. -/
def retryRun {ε α : Type} (fn : Nat → Except ε α) (u : α → Bool) (idx : Nat) :
    Nat → List (Except ε α) × Nat × Except ε α
  | 0 => ([fn idx], 0, fn idx)
  | 1 => ([fn idx], 0, fn idx)
  | fuel + 2 =>
    match fn idx with
    | Except.ok r =>
      if u r then ([Except.ok r], 0, Except.ok r)
      else
        let next := retryRun fn u (idx + 1) (fuel + 1)
        (Except.ok r :: next.1, retryDelayMs + next.2.1, next.2.2)
    | Except.error e =>
      let next := retryRun fn u (idx + 1) (fuel + 1)
      (Except.error e :: next.1, retryDelayMs + next.2.1, next.2.2)

/-- Final outcome of the modelled retry loop. -/
def retryAsync {ε α : Type} (fn : Nat → Except ε α) (u : α → Bool) (idx fuel : Nat) : Except ε α :=
  (retryRun fn u idx fuel).2.2

/-- Embedding of isCiGreen (github.ts lines 52-105).  The initial check
suite fetch is awaited inside the try block, so its failure is caught and
collapsed to ok (some false).  The retryAsync result is returned without
await from inside the try block, so a rejection arising inside the retry
loop is NOT caught: it propagates to the caller as an error value. -/
def isCiGreen (workflowName : String) (fetchSuites : Except String (List CheckSuite))
    (fetchRuns : Nat → CheckSuite → Except String (List CheckRun)) : Except String (Option Bool) :=
  match fetchSuites with
  | Except.error _ => Except.ok (some false)
  | Except.ok checkSuites =>
    retryAsync (fun i => ciAttempt workflowName checkSuites (fetchRuns i))
      (fun lastResult => lastResult.isSome) 0 retryMaxTry

/-- Polling loop of isCiGreen with its full trace, for stating the retry
policy. -/
def ciLoop (workflowName : String) (checkSuites : List CheckSuite)
    (fetchRuns : Nat → CheckSuite → Except String (List CheckRun)) :
    List (Except String (Option Bool)) × Nat × Except String (Option Bool) :=
  retryRun (fun i => ciAttempt workflowName checkSuites (fetchRuns i))
    (fun lastResult => lastResult.isSome) 0 retryMaxTry

/-- Normalised watch target (github.ts lines 107-125 result shape). -/
structure Target where
  org : String
  repo : String
deriving DecidableEq

/-- Embedding of parseTarget (github.ts lines 107-125): a missing
repository owner is an error; a target org/repo with a truthy repo part is
dropped (none) when its org part differs from the owner; a target without
a truthy second part puts its sole segment into the repo field. -/
def parseTarget (owner? : Option String) (target : String) : Except String (Option Target) :=
  match owner? with
  | none => Except.error "No repository owner has been found, the target cannot be parsed."
  | some owner =>
    let parts := jsSplit '/' target
    let orgParsed := parts.headD ""
    match parts[1]? with
    | some repoParsed =>
      if repoParsed ≠ "" then
        if orgParsed ≠ owner then Except.ok none
        else Except.ok (some { org := owner, repo := repoParsed })
      else Except.ok (some { org := owner, repo := orgParsed })
    | none => Except.ok (some { org := owner, repo := orgParsed })

/-- Search filter term contributed by one target (github.ts lines
139-153): repo or org prefixed, negated for ignore targets, none when the
target was dropped. -/
def targetTerm (owner? : Option String) (neg : Bool) (target : String) : Except String (Option String) :=
  match parseTarget owner? target with
  | Except.error e => Except.error e
  | Except.ok none => Except.ok none
  | Except.ok (some pt) =>
    if pt.repo ≠ "" then
      Except.ok (some ((if neg then "-repo:" else "repo:") ++ pt.org ++ "/" ++ pt.repo))
    else
      Except.ok (some ((if neg then "-org:" else "org:") ++ pt.org))

/-- Default monitor entry pushed when the monitor list is empty
(github.ts line 137): the literal template text, including its space. -/
def defaultMonitorTarget (owner? : Option String) : String :=
  "org: " ++ (match owner? with | some o => o | none => "undefined")

/-- Accumulation of the reduce over one target list (github.ts lines
140-153): dropped targets contribute nothing, a parse error propagates. -/
def termsOf (owner? : Option String) (neg : Bool) : List String → Except String (List String)
  | [] => Except.ok []
  | t :: rest =>
    match targetTerm owner? neg t with
    | Except.error e => Except.error e
    | Except.ok none => termsOf owner? neg rest
    | Except.ok (some s) =>
      match termsOf owner? neg rest with
      | Except.error e => Except.error e
      | Except.ok acc => Except.ok (s :: acc)

/-- Search filter of getOpenPullRequests (github.ts lines 134-154):
positive terms from the monitor list (defaulted when empty) followed by
negative terms from the ignore list, dropped targets contributing
nothing. -/
def buildFilter (owner? : Option String) (monitor ignore : List String) : Except String (List String) :=
  let m := if monitor.isEmpty then [defaultMonitorTarget owner?] else monitor
  match termsOf owner? false m with
  | Except.error e => Except.error e
  | Except.ok pos =>
    match termsOf owner? true ignore with
    | Except.error e => Except.error e
    | Except.ok neg => Except.ok (pos ++ neg)

/-- Join a list of strings with a separator, the model of the JS Array
join method used on the filter terms. -/
def joinWith (sep : String) (l : List String) : String :=
  String.mk (((l.map String.toList).intersperse sep.toList).flatten)

/-- Search query issued by getOpenPullRequests (github.ts line 157). -/
def searchQuery (owner? : Option String) (monitor ignore : List String) : Except String String :=
  match buildFilter owner? monitor ignore with
  | Except.error e => Except.error e
  | Except.ok filter => Except.ok ("is:pr is:open draft:false " ++ joinWith " " filter)

/-- Timeline event shape probed by the orchestrator
(update-pull-requests.ts lines 6-11): every field optional. -/
structure IssueEvent where
  created_at : Option String
  updated_at : Option String
  timestamp : Option String
  commented_at : Option String

/-- JS truthiness fallback over the optional timestamp fields: an absent
or empty string falls through to the next alternative. -/
def jsOr (o : Option String) (d : String) : String :=
  match o with
  | some s => if s = "" then d else s
  | none => d

/-- First truthy timestamp field of an event, empty when none is present
(update-pull-requests.ts line 47). -/
def eventFirst (e : IssueEvent) : String :=
  jsOr e.created_at (jsOr e.updated_at (jsOr e.timestamp (jsOr e.commented_at "")))

/-- Timestamp extracted from one event: the parsed first truthy field,
none modelling an invalid date (NaN), in particular for the empty
fallback string (update-pull-requests.ts lines 44-49). -/
def eventTimestamp (parseDate : String → Option Int) (e : IssueEvent) : Option Int :=
  let s := eventFirst e
  if s = "" then none else parseDate s

/-- External environment of the orchestrator: the current time, the JS
date parser (none models NaN), the ms duration parser (none models
undefined) and the workflow name of the automation itself. -/
structure Env where
  now : Int
  parseDate : String → Option Int
  msParse : String → Option Int
  workflowName : String

/-- Embedding of isPastOffset (update-pull-requests.ts lines 86-97): an
unparseable offset is an error, otherwise the last activity plus the
offset is compared against the current time. -/
def isPastOffset (env : Env) (lastActivityDate : Int) (offset : String) : Except String Bool :=
  match env.msParse offset with
  | none => Except.error "Invalid offset format"
  | some offsetTime => Except.ok (decide (env.now > lastActivityDate + offsetTime))

/-- Past due test of the orchestrator (update-pull-requests.ts line 57):
an invalid last-activity date (none, modelling NaN) short-circuits to past
due without consulting the offset; otherwise isPastOffset decides. -/
def pastDue (env : Env) (lastActivity : Option Int) (offset : String) : Except String Bool :=
  match lastActivity with
  | none => Except.ok true
  | some t => isPastOffset env t offset

/-- Pull request details consumed by the orchestrator
(update-pull-requests.ts lines 34, 53, 59). -/
structure PRDetails where
  merged : Bool
  closed_at : Option String
  author_association : String
  head_sha : String

/-- Oracle values for the external calls made while processing one tracked
pull request: details fetch, timeline fetch, review fetch, check suite
fetch for the head commit, per-attempt check run fetch, tracked-store
delete outcome and merge API outcome. -/
structure Snapshot where
  details : Except String PRDetails
  timeline : Except String (List IssueEvent)
  reviews : Except String (List Review)
  suites : Except String (List CheckSuite)
  runs : Nat → CheckSuite → Except String (List CheckRun)
  deleteRes : Except String Unit
  mergeRes : Except String Unit

/-- Embedding of mergePullRequest (update-pull-requests.ts lines 77-84):
delete the tracked URL first, then call the merge API; either failure
propagates, and a merge failure does not undo the deletion. -/
def mergeSteps (snap : Snapshot) (url : String) (g : IssueParams) : List Action × Option String :=
  match snap.deleteRes with
  | Except.error e => ([], some e)
  | Except.ok _ =>
    ([Action.deleteTracked url, Action.mergeCall g.owner g.repo g.issue_number],
     match snap.mergeRes with
     | Except.ok _ => none
     | Except.error e => some e)

/-- Past-due continuation of the orchestrator (update-pull-requests.ts
lines 58-67): approval gate, then CI gate, then merge.  An error value of
isCiGreen propagates to the per-item handler. -/
def afterDue (cfg : Config) (env : Env) (snap : Snapshot) (url : String) (g : IssueParams)
    (assoc : String) : List Action × Option String :=
  if (getApprovalCount snap.reviews).2 ≥
      (getMergeTimeoutAndApprovalRequiredCount cfg assoc).requiredApprovalCount then
    match isCiGreen env.workflowName snap.suites snap.runs with
    | Except.error e => ((getApprovalCount snap.reviews).1, some e)
    | Except.ok v =>
      if v = some true then
        ((getApprovalCount snap.reviews).1 ++ [Action.logInfo "is past its due date, will merge"]
          ++ (mergeSteps snap url g).1,
         (mergeSteps snap url g).2)
      else
        ((getApprovalCount snap.reviews).1 ++ [Action.logInfo "does not pass all CI tests, will not merge"],
         none)
  else
    ((getApprovalCount snap.reviews).1
      ++ [Action.logInfo "does not have sufficient reviewer approvals to be merged"], none)

/-- Processing of one tracked pull request (update-pull-requests.ts lines
30-70, the body of the per-item try block): the returned pair is the
action trace and, in the second component, the error that escapes to the
per-item catch handler, if any. -/
def processOne (cfg : Config) (env : Env) (snap : Snapshot) (url : String) : List Action × Option String :=
  match parseGitHubUrl url with
  | Except.error e => ([], some e)
  | Except.ok gitHubUrl =>
    match snap.details with
    | Except.error e => ([], some e)
    | Except.ok d =>
      if d.merged || d.closed_at.isSome then
        match snap.deleteRes with
        | Except.ok _ =>
          ([Action.logDebug "Processing pull-request",
            Action.logInfo "is already merged or closed, nothing to do",
            Action.deleteTracked url], none)
        | Except.error _ =>
          ([Action.logDebug "Processing pull-request",
            Action.logInfo "is already merged or closed, nothing to do",
            Action.logError "Failed to delete pull-request"], none)
      else
        match snap.timeline with
        | Except.error e => ([Action.logDebug "Processing pull-request"], some e)
        | Except.ok activity =>
          match pastDue env ((activity.filterMap (eventTimestamp env.parseDate)).max?)
              (getMergeTimeoutAndApprovalRequiredCount cfg d.author_association).mergeTimeout with
          | Except.error e =>
            ([Action.logDebug "Processing pull-request",
              Action.logDebug "Requirements according to association"], some e)
          | Except.ok true =>
            ([Action.logDebug "Processing pull-request",
              Action.logDebug "Requirements according to association"]
               ++ (afterDue cfg env snap url gitHubUrl d.author_association).1,
             (afterDue cfg env snap url gitHubUrl d.author_association).2)
          | Except.ok false =>
            ([Action.logDebug "Processing pull-request",
              Action.logDebug "Requirements according to association",
              Action.logInfo "has activity up until, nothing to do"], none)

/-- One iteration of the orchestrator loop including the per-item catch
handler (update-pull-requests.ts lines 30-73): an escaping error is logged
and the batch continues. -/
def processItem (cfg : Config) (env : Env) (snaps : String → Snapshot) (url : String) : List Action :=
  (processOne cfg env (snaps url) url).1 ++
    (match (processOne cfg env (snaps url) url).2 with
     | some _ => [Action.logError "Could not process pull-request for auto-merge"]
     | none => [])

/-- Embedding of updatePullRequests (update-pull-requests.ts lines 23-75).
The tracked list returned by getRepositories (not present under src/) is
taken as the input list, per the spec: a read of the full tracked list. -/
def updatePullRequests (cfg : Config) (env : Env) (tracked : List String)
    (snaps : String → Snapshot) : List Action :=
  if tracked.isEmpty then [Action.logInfo "Nothing to do."]
  else ((tracked.map (processItem cfg env snaps)).flatten)

/-- Number of tracked-list deletions of a given URL in a trace. -/
def countDel (url : String) (tr : List Action) : Nat :=
  tr.countP (fun a => a == Action.deleteTracked url)

/-- Merge API call recogniser. -/
def isMergeCall : Action → Bool
  | Action.mergeCall _ _ _ => true
  | _ => false

/-- Number of merge API calls in a trace. -/
def countMerges (tr : List Action) : Nat :=
  tr.countP isMergeCall

/-! Helper lemmas about the modelled retry loop. -/

/-- Every run of the retry loop makes at least one attempt. -/
theorem retryRun_ne_nil {ε α : Type} (fn : Nat → Except ε α) (u : α → Bool) (idx fuel : Nat) :
    (retryRun fn u idx fuel).1 ≠ [] := by
  match fuel with
  | 0 => simp [retryRun]
  | 1 => simp [retryRun]
  | f + 2 =>
    simp only [retryRun]
    cases hfn : fn idx with
    | ok r =>
      by_cases hu : u r
      · simp [hu]
      · simp [hu]
    | error e => simp

/-- The retry loop makes at most fuel attempts. -/
theorem retryRun_length_le {ε α : Type} (fn : Nat → Except ε α) (u : α → Bool) :
    ∀ fuel idx, 1 ≤ fuel → (retryRun fn u idx fuel).1.length ≤ fuel := by
  intro fuel
  induction fuel with
  | zero => intro idx h; omega
  | succ n ih =>
    intro idx _
    cases n with
    | zero => simp [retryRun]
    | succ m =>
      simp only [retryRun]
      cases hfn : fn idx with
      | ok r =>
        cases hu : u r with
        | true => simp [hu]
        | false =>
          have h := ih (idx + 1) (by omega)
          simp [hu]
          omega
      | error e =>
        have h := ih (idx + 1) (by omega)
        simp
        omega

/-- The accumulated waiting time is one fixed delay per attempt after the
first. -/
theorem retryRun_sleeps {ε α : Type} (fn : Nat → Except ε α) (u : α → Bool) :
    ∀ fuel idx,
      (retryRun fn u idx fuel).2.1 = ((retryRun fn u idx fuel).1.length - 1) * retryDelayMs := by
  intro fuel
  induction fuel with
  | zero => intro idx; simp [retryRun]
  | succ n ih =>
    intro idx
    cases n with
    | zero => simp [retryRun]
    | succ m =>
      simp only [retryRun]
      cases hfn : fn idx with
      | ok r =>
        cases hu : u r with
        | true => simp [hu]
        | false =>
          have h1 := ih (idx + 1)
          have h3 : 0 < (retryRun fn u (idx + 1) (m + 1)).1.length :=
            List.length_pos.mpr (retryRun_ne_nil fn u (idx + 1) (m + 1))
          simp [hu, h1, retryDelayMs] at h3 ⊢
          omega
      | error e =>
        have h1 := ih (idx + 1)
        have h3 : 0 < (retryRun fn u (idx + 1) (m + 1)).1.length :=
          List.length_pos.mpr (retryRun_ne_nil fn u (idx + 1) (m + 1))
        simp [h1, retryDelayMs] at h3 ⊢
        omega

/-- When no attempt raises, every attempt before the last one was
indeterminate: the loop stops at the first determinate result. -/
theorem retryRun_prefix_indet (fn : Nat → Except String (Option Bool))
    (hok : ∀ i, ∃ v, fn i = Except.ok v) :
    ∀ fuel idx i, i + 1 < (retryRun fn (fun v => v.isSome) idx fuel).1.length →
      (retryRun fn (fun v => v.isSome) idx fuel).1[i]? = some (Except.ok none) := by
  intro fuel
  induction fuel with
  | zero => intro idx i hi; simp [retryRun] at hi
  | succ n ih =>
    intro idx i hi
    cases n with
    | zero => simp [retryRun] at hi
    | succ m =>
      obtain ⟨v, hv⟩ := hok idx
      cases v with
      | some b =>
        simp [retryRun, hv] at hi
      | none =>
        simp only [retryRun, hv, Option.isSome_none, Bool.false_eq_true, if_false] at hi ⊢
        cases i with
        | zero => simp
        | succ j =>
          simp only [List.length_cons] at hi
          simpa using ih (idx + 1) j (by omega)

/-- When every attempt in range is indeterminate, the loop runs the full
number of attempts and returns the last indeterminate value. -/
theorem retryRun_all_indet (fn : Nat → Except String (Option Bool)) :
    ∀ fuel idx, 1 ≤ fuel →
      (∀ j, idx ≤ j → j < idx + fuel → fn j = Except.ok none) →
      (retryRun fn (fun v => v.isSome) idx fuel).1.length = fuel ∧
        (retryRun fn (fun v => v.isSome) idx fuel).2.2 = Except.ok none := by
  intro fuel
  induction fuel with
  | zero => intro idx h; omega
  | succ n ih =>
    intro idx _ hall
    cases n with
    | zero =>
      have h0 := hall idx (by omega) (by omega)
      simp [retryRun, h0]
    | succ m =>
      have h0 := hall idx (by omega) (by omega)
      have h := ih (idx + 1) (by omega) (fun j hj1 hj2 => hall j (by omega) (by omega))
      simp only [retryRun, h0, Option.isSome_none, Bool.false_eq_true, if_false, List.length_cons]
      exact ⟨by simp [h.1], h.2⟩

/-! Helper lemmas about traces. -/

/-- The approval counter emits no deletion and no merge call. -/
theorem approval_no_deletes (url : String) (r : Except String (List Review)) :
    countDel url (getApprovalCount r).1 = 0 := by
  cases r <;> simp [getApprovalCount, countDel]

/-- The approval counter emits no merge call. -/
theorem approval_no_merges (r : Except String (List Review)) :
    countMerges (getApprovalCount r).1 = 0 := by
  cases r <;> simp [getApprovalCount, countMerges, isMergeCall]

/-! Concrete fixtures used by the witnesses. -/

/-- Sample environment for the witnesses. -/
def sampleEnv : Env :=
  { now := 1000000, parseDate := fun _ => none, msParse := fun _ => some 0,
    workflowName := "automerge" }

/-- Sample configuration for the witnesses: two approvals required. -/
def sampleCfg : Config :=
  { mergeTimeout := { collaborator := "3 days", contributor := "7 days" },
    approvalsRequired := { collaborator := 2, contributor := 2 } }

/-- Sample tracked pull request URL. -/
def sampleUrl : String := "https://github.com/ubiquity/daemon/pull/7"

/-- Sample open pull request details. -/
def sampleDetails : PRDetails :=
  { merged := false, closed_at := none, author_association := "MEMBER", head_sha := "abc123" }

/-- Sample snapshot: open pull request, no timeline activity, two approving
reviews out of three, no check suite, effects succeed. -/
def sampleSnap : Snapshot :=
  { details := Except.ok sampleDetails, timeline := Except.ok [],
    reviews := Except.ok [⟨"APPROVED"⟩, ⟨"CHANGES_REQUESTED"⟩, ⟨"APPROVED"⟩],
    suites := Except.ok [], runs := fun _ _ => Except.ok [],
    deleteRes := Except.ok (), mergeRes := Except.ok () }

/-- Timeline event carrying no timestamp in any of its fields. -/
def sampleEventNoTs : IssueEvent :=
  { created_at := none, updated_at := none, timestamp := none, commented_at := none }

/-- Sample snapshot whose timeline events carry no valid timestamp. -/
def sampleSnapNoTs : Snapshot := { sampleSnap with timeline := Except.ok [sampleEventNoTs] }

/-- Sample snapshot of an already merged pull request. -/
def sampleSnapMerged : Snapshot :=
  { sampleSnap with details := Except.ok { sampleDetails with merged := true } }

/-- Sample snapshot whose merge API call fails. -/
def sampleSnapMergeFail : Snapshot := { sampleSnap with mergeRes := Except.error "merge failed" }

/-! Claim theorems. -/

/-- C8: a URL whose path does not split into exactly 5 segments fails with
an error message containing the offending URL; a URL whose path splits
into exactly 5 segments parses to owner, repo and the numeric value of the
fourth segment. -/
theorem parseGitHubUrl_contract (url p : String) (hp : urlPathname url = some p) :
    ((jsSplit '/' p).length ≠ 5 →
      ∃ pre post, parseGitHubUrl url = Except.error (pre ++ url ++ post)) ∧
    ((jsSplit '/' p).length = 5 →
      parseGitHubUrl url = Except.ok
        { owner := (jsSplit '/' p).getD 1 "", repo := (jsSplit '/' p).getD 2 "",
          issue_number := jsNumber ((jsSplit '/' p).getD 4 "") }) := by
  constructor
  · intro h5
    refine ⟨"[parseGitHubUrl] Invalid url: [", "]", ?_⟩
    simp [parseGitHubUrl, hp, h5]
  · intro h5
    simp [parseGitHubUrl, hp, h5]

/-- C8 witness: the well-formed sample URL parses to OWNER, REPO and 42. -/
theorem parseGitHubUrl_contract_witness :
    urlPathname "https://host/OWNER/REPO/pull/42" = some "/OWNER/REPO/pull/42" ∧
    (jsSplit '/' "/OWNER/REPO/pull/42").length = 5 ∧
    parseGitHubUrl "https://host/OWNER/REPO/pull/42" =
      Except.ok { owner := "OWNER", repo := "REPO", issue_number := some 42 } :=
  ⟨rfl, rfl,
   (parseGitHubUrl_contract "https://host/OWNER/REPO/pull/42" "/OWNER/REPO/pull/42" rfl).2 rfl⟩

/-- C5 counterexample: the single-segment target otherorg, whose
organization part differs from the owner ubiquity, is NOT dropped: it
parses to a repo target of the current owner and contributes a filter
term. -/
theorem parseTarget_org_only_counterexample :
    parseTarget (some "ubiquity") "otherorg" = Except.ok (some { org := "ubiquity", repo := "otherorg" }) ∧
    "otherorg" ≠ "ubiquity" ∧
    targetTerm (some "ubiquity") true "otherorg" = Except.ok (some "-repo:ubiquity/otherorg") := by
  refine ⟨rfl, by decide, rfl⟩

/-- C5 (amended): a target of the form org/repo, with a nonempty repo
segment, whose organization part differs from the current owner, is
dropped by parseTarget and contributes no term to the search filter;
single-segment targets are never dropped. -/
theorem parseTarget_foreign_org_repo_dropped (owner target r : String)
    (h1 : (jsSplit '/' target)[1]? = some r) (h2 : r ≠ "")
    (h3 : (jsSplit '/' target).headD "" ≠ owner) :
    parseTarget (some owner) target = Except.ok none ∧
    targetTerm (some owner) false target = Except.ok none ∧
    targetTerm (some owner) true target = Except.ok none ∧
    buildFilter (some owner) [target] [target] = Except.ok [] := by
  have hp : parseTarget (some owner) target = Except.ok none := by
    simp only [parseTarget, h1]
    rw [if_pos h2, if_pos h3]
  have ht1 : targetTerm (some owner) false target = Except.ok none := by
    simp [targetTerm, hp]
  have ht2 : targetTerm (some owner) true target = Except.ok none := by
    simp [targetTerm, hp]
  refine ⟨hp, ht1, ht2, ?_⟩
  simp [buildFilter, termsOf, ht1, ht2]

/-- C5 witness: the target other/repo with current owner ubiquity is
dropped everywhere. -/
theorem parseTarget_foreign_org_repo_dropped_witness :
    (jsSplit '/' "other/repo")[1]? = some "repo" ∧
    (jsSplit '/' "other/repo").headD "" ≠ "ubiquity" ∧
    parseTarget (some "ubiquity") "other/repo" = Except.ok none ∧
    buildFilter (some "ubiquity") ["other/repo"] ["other/repo"] = Except.ok [] :=
  ⟨rfl, by decide,
   (parseTarget_foreign_org_repo_dropped "ubiquity" "other/repo" "repo" rfl (by decide) (by decide)).1,
   (parseTarget_foreign_org_repo_dropped "ubiquity" "other/repo" "repo" rfl (by decide) (by decide)).2.2.2⟩

/-- C6: with an empty monitor list and owner ubiquity the code does NOT
default to the term org:ubiquity; the pushed default string is parsed as a
repo target, yielding the malformed term repo:ubiquity/org: ubiquity, and
a kept single-segment monitor target yields a repo term, not an org
term.  This contradicts the claim and the code comment above the default
push. -/
theorem emptyMonitor_default_filter :
    buildFilter (some "ubiquity") [] [] = Except.ok ["repo:ubiquity/org: ubiquity"] ∧
    searchQuery (some "ubiquity") [] [] =
      Except.ok "is:pr is:open draft:false repo:ubiquity/org: ubiquity" ∧
    buildFilter (some "ubiquity") ["ubiquity"] [] = Except.ok ["repo:ubiquity/ubiquity"] := by
  refine ⟨rfl, rfl, rfl⟩

/-- C4 counterexample: with the failing completed suite listed before the
in-progress suite, the attempt verdict is false (CI red) even though a
non-self check run is not completed; the pooled reading of the claim
demands an indeterminate attempt. -/
theorem ciVerdict_pooled_counterexample :
    suitesVerdict "automerge"
      [[{ name := "build", status := "completed", conclusion := some "failure" }],
       [{ name := "test", status := "in_progress", conclusion := none }]] = some false ∧
    suitesVerdict "automerge"
      [[{ name := "build", status := "completed", conclusion := some "failure" }],
       [{ name := "test", status := "in_progress", conclusion := none }]] ≠ none ∧
    ({ name := "test", status := "in_progress", conclusion := none } : CheckRun).status ≠ "completed" ∧
    ({ name := "test", status := "in_progress", conclusion := none } : CheckRun).name ≠ "automerge" := by
  refine ⟨rfl, by decide, by decide, by decide⟩

/-- Characterisation of the per-attempt verdict: the suites are inspected
in list order and the first suite that decides (an incomplete non-self run
makes the attempt indeterminate, otherwise a failed non-self run makes it
false) determines the verdict; when no suite decides the verdict is
true. -/
theorem suitesVerdict_first_deciding_suite (workflowName : String) (results : List (List CheckRun)) :
    suitesVerdict workflowName results =
      (results.findSome? (suiteDecision workflowName)).getD (some true) := by
  induction results with
  | nil => rfl
  | cons cr rest ih =>
    cases h1 : (cr.filter (fun o => o.name != workflowName)).any (fun o => o.status != "completed") with
    | true => simp [suitesVerdict, suiteDecision, List.findSome?_cons, h1]
    | false =>
      cases h2 : (cr.filter (fun o => o.name != workflowName)).any
          (fun o => o.conclusion == some "failure") with
      | true => simp [suitesVerdict, suiteDecision, List.findSome?_cons, h1, h2]
      | false => simp [suitesVerdict, suiteDecision, List.findSome?_cons, h1, h2, ih]

/-- C4 (amended): in each CI Gate attempt whose per-suite check run
fetches all succeed, the suites are examined in order, only runs whose
name differs from the automation workflow name count, and the first suite
holding an incomplete such run makes the attempt indeterminate, otherwise
the first suite holding a failure-concluded such run makes it false;
when no suite decides, the attempt is true. -/
theorem ciAttempt_per_suite_order (workflowName : String) (checkSuites : List CheckSuite)
    (fetchRuns : CheckSuite → Except String (List CheckRun)) (results : List (List CheckRun))
    (h : checkSuites.mapM fetchRuns = Except.ok results) :
    ciAttempt workflowName checkSuites fetchRuns =
      Except.ok ((results.findSome? (suiteDecision workflowName)).getD (some true)) := by
  simp only [ciAttempt]
  rw [h]
  exact congrArg Except.ok (suitesVerdict_first_deciding_suite workflowName results)

/-- C4 witness: a single suite with one failed non-self run yields the
verdict false on the attempt. -/
theorem ciAttempt_per_suite_order_witness :
    ([⟨1⟩] : List CheckSuite).mapM
        (fun _ => (Except.ok [{ name := "build", status := "completed", conclusion := some "failure" }] :
          Except String (List CheckRun))) =
      Except.ok [[{ name := "build", status := "completed", conclusion := some "failure" }]] ∧
    ciAttempt "automerge" [⟨1⟩]
        (fun _ => (Except.ok [{ name := "build", status := "completed", conclusion := some "failure" }] :
          Except String (List CheckRun))) =
      Except.ok (some false) :=
  ⟨rfl,
   ciAttempt_per_suite_order "automerge" [⟨1⟩]
     (fun _ => (Except.ok [{ name := "build", status := "completed", conclusion := some "failure" }] :
       Except String (List CheckRun)))
     [[{ name := "build", status := "completed", conclusion := some "failure" }]] rfl⟩

/-- C2: the approval counter catches a fetch failure, logs it and returns
0, but the CI Gate does not catch fetch errors arising inside the retry
loop: because the retryAsync result is returned without await from inside
the try block, a per-attempt check run fetch error propagates to the
caller as an error instead of being logged and collapsed to false; only
the initial check suite fetch error is caught and collapsed to false. -/
theorem ciGreen_retry_error_escapes :
    isCiGreen "automerge" (Except.ok [⟨1⟩]) (fun _ _ => Except.error "network error") =
      Except.error "network error" ∧
    isCiGreen "automerge" (Except.error "network error") (fun _ _ => Except.ok []) =
      Except.ok (some false) ∧
    getApprovalCount (Except.error "network error") =
      ([Action.logError "Error fetching reviews approvals"], 0) := by
  refine ⟨rfl, rfl, rfl⟩

/-- C3: the CI Gate polling loop waits the fixed 60000 ms delay between
consecutive attempts, makes at most 100 attempts, stops at the first
non-indeterminate attempt (every attempt before the last is
indeterminate), terminates by construction, and when all 100 attempts are
indeterminate it returns the last indeterminate value instead of raising;
the loop outcome is exactly the value isCiGreen returns when the suite
fetch succeeded. -/
theorem ciGate_retry_policy (workflowName : String) (checkSuites : List CheckSuite)
    (fetchRuns : Nat → CheckSuite → Except String (List CheckRun))
    (hok : ∀ i, ∃ v, ciAttempt workflowName checkSuites (fetchRuns i) = Except.ok v) :
    isCiGreen workflowName (Except.ok checkSuites) fetchRuns =
      (ciLoop workflowName checkSuites fetchRuns).2.2 ∧
    (ciLoop workflowName checkSuites fetchRuns).1.length ≤ 100 ∧
    (ciLoop workflowName checkSuites fetchRuns).2.1 =
      ((ciLoop workflowName checkSuites fetchRuns).1.length - 1) * retryDelayMs ∧
    (∀ i, i + 1 < (ciLoop workflowName checkSuites fetchRuns).1.length →
      (ciLoop workflowName checkSuites fetchRuns).1[i]? = some (Except.ok none)) ∧
    ((∀ i, i < 100 → ciAttempt workflowName checkSuites (fetchRuns i) = Except.ok none) →
      (ciLoop workflowName checkSuites fetchRuns).1.length = 100 ∧
      (ciLoop workflowName checkSuites fetchRuns).2.2 = Except.ok none) := by
  refine ⟨rfl, ?_, ?_, ?_, ?_⟩
  · exact retryRun_length_le _ _ retryMaxTry 0 (by decide)
  · exact retryRun_sleeps _ _ retryMaxTry 0
  · intro i hi
    exact retryRun_prefix_indet _ hok retryMaxTry 0 i hi
  · intro hall
    exact retryRun_all_indet _ retryMaxTry 0 (by decide)
      (fun j hj1 hj2 => hall j (by simpa [retryMaxTry] using hj2))

/-- C3 witness: with no check suite the first attempt is determinate, so
the loop stops at once. -/
theorem ciGate_retry_policy_witness :
    isCiGreen "automerge" (Except.ok []) (fun _ _ => Except.ok []) =
      (ciLoop "automerge" [] (fun _ _ => Except.ok [])).2.2 ∧
    (ciLoop "automerge" [] (fun _ _ => Except.ok [])).1.length ≤ 100 ∧
    isCiGreen "automerge" (Except.ok []) (fun _ _ => Except.ok []) = Except.ok (some true) :=
  ⟨(ciGate_retry_policy "automerge" [] (fun _ _ => Except.ok [])
      (fun _ => ⟨some true, rfl⟩)).1,
   (ciGate_retry_policy "automerge" [] (fun _ _ => Except.ok [])
      (fun _ => ⟨some true, rfl⟩)).2.1,
   rfl⟩

/-- C7: when the fetched timeline of an open tracked pull request yields
no valid timestamp, the past due test short-circuits to true and the
orchestrator proceeds to the approval and CI stage instead of skipping the
item. -/
theorem noValidTimestamp_past_due (cfg : Config) (env : Env) (snap : Snapshot) (url : String)
    (g : IssueParams) (d : PRDetails) (activity : List IssueEvent)
    (hparse : parseGitHubUrl url = Except.ok g)
    (hdet : snap.details = Except.ok d)
    (hm : d.merged = false) (hc : d.closed_at = none)
    (htl : snap.timeline = Except.ok activity)
    (hnone : activity.filterMap (eventTimestamp env.parseDate) = []) :
    pastDue env ((activity.filterMap (eventTimestamp env.parseDate)).max?)
        (getMergeTimeoutAndApprovalRequiredCount cfg d.author_association).mergeTimeout =
      Except.ok true ∧
    processOne cfg env snap url =
      ([Action.logDebug "Processing pull-request",
        Action.logDebug "Requirements according to association"]
         ++ (afterDue cfg env snap url g d.author_association).1,
       (afterDue cfg env snap url g d.author_association).2) := by
  have hdue : pastDue env ((activity.filterMap (eventTimestamp env.parseDate)).max?)
      (getMergeTimeoutAndApprovalRequiredCount cfg d.author_association).mergeTimeout =
      Except.ok true := by
    rw [hnone]; rfl
  refine ⟨hdue, ?_⟩
  simp [processOne, hparse, hdet, hm, hc, htl, hdue]

/-- C7 witness: a timeline with one event carrying no timestamp field
makes the sample pull request past due and the orchestrator runs the
approval and CI stage. -/
theorem noValidTimestamp_past_due_witness :
    [sampleEventNoTs].filterMap (eventTimestamp sampleEnv.parseDate) = [] ∧
    pastDue sampleEnv (([sampleEventNoTs].filterMap (eventTimestamp sampleEnv.parseDate)).max?)
        (getMergeTimeoutAndApprovalRequiredCount sampleCfg sampleDetails.author_association).mergeTimeout =
      Except.ok true ∧
    processOne sampleCfg sampleEnv sampleSnapNoTs sampleUrl =
      ([Action.logDebug "Processing pull-request",
        Action.logDebug "Requirements according to association"]
         ++ (afterDue sampleCfg sampleEnv sampleSnapNoTs sampleUrl
              { owner := "ubiquity", repo := "daemon", issue_number := some 7 }
              sampleDetails.author_association).1,
       (afterDue sampleCfg sampleEnv sampleSnapNoTs sampleUrl
          { owner := "ubiquity", repo := "daemon", issue_number := some 7 }
          sampleDetails.author_association).2) :=
  ⟨rfl,
   (noValidTimestamp_past_due sampleCfg sampleEnv sampleSnapNoTs sampleUrl
      { owner := "ubiquity", repo := "daemon", issue_number := some 7 }
      sampleDetails [sampleEventNoTs] rfl rfl rfl rfl rfl rfl).1,
   (noValidTimestamp_past_due sampleCfg sampleEnv sampleSnapNoTs sampleUrl
      { owner := "ubiquity", repo := "daemon", issue_number := some 7 }
      sampleDetails [sampleEventNoTs] rfl rfl rfl rfl rfl rfl).2⟩

/-- C9: a tracked pull request whose fetched details show it merged or
closed is removed from the tracked list and processing of the item stops
with no merge call and no escaping error. -/
theorem closedPR_removed_without_merge (cfg : Config) (env : Env) (snap : Snapshot) (url : String)
    (g : IssueParams) (d : PRDetails)
    (hparse : parseGitHubUrl url = Except.ok g)
    (hdet : snap.details = Except.ok d)
    (hclosed : d.merged = true ∨ d.closed_at.isSome = true)
    (hdel : snap.deleteRes = Except.ok ()) :
    processOne cfg env snap url =
      ([Action.logDebug "Processing pull-request",
        Action.logInfo "is already merged or closed, nothing to do",
        Action.deleteTracked url], none) ∧
    countMerges (processOne cfg env snap url).1 = 0 ∧
    countDel url (processOne cfg env snap url).1 = 1 := by
  have hcond : (d.merged || d.closed_at.isSome) = true := by
    rcases hclosed with h | h <;> simp [h]
  have h1 : processOne cfg env snap url =
      ([Action.logDebug "Processing pull-request",
        Action.logInfo "is already merged or closed, nothing to do",
        Action.deleteTracked url], none) := by
    simp [processOne, hparse, hdet, hcond, hdel]
  refine ⟨h1, ?_, ?_⟩ <;> rw [h1] <;> simp [countMerges, countDel, isMergeCall]

/-- C9 witness: the sample merged pull request is removed without any
merge call. -/
theorem closedPR_removed_without_merge_witness :
    sampleSnapMerged.details = Except.ok { sampleDetails with merged := true } ∧
    processOne sampleCfg sampleEnv sampleSnapMerged sampleUrl =
      ([Action.logDebug "Processing pull-request",
        Action.logInfo "is already merged or closed, nothing to do",
        Action.deleteTracked sampleUrl], none) ∧
    countMerges (processOne sampleCfg sampleEnv sampleSnapMerged sampleUrl).1 = 0 :=
  ⟨rfl,
   (closedPR_removed_without_merge sampleCfg sampleEnv sampleSnapMerged sampleUrl
      { owner := "ubiquity", repo := "daemon", issue_number := some 7 }
      { sampleDetails with merged := true } rfl rfl (Or.inl rfl) rfl).1,
   (closedPR_removed_without_merge sampleCfg sampleEnv sampleSnapMerged sampleUrl
      { owner := "ubiquity", repo := "daemon", issue_number := some 7 }
      { sampleDetails with merged := true } rfl rfl (Or.inl rfl) rfl).2.1⟩

/-- C1: an open tracked pull request that is past due, with enough
approvals and a green CI gate, has its URL deleted from the tracked store
exactly once and the merge API invoked exactly once, the deletion coming
before the merge call: the trace ends with the deletion directly followed
by the merge call and contains no other deletion or merge call. -/
theorem trackedPR_all_green_single_merge (cfg : Config) (env : Env) (snap : Snapshot) (url : String)
    (g : IssueParams) (d : PRDetails) (activity : List IssueEvent)
    (hparse : parseGitHubUrl url = Except.ok g)
    (hdet : snap.details = Except.ok d)
    (hm : d.merged = false) (hc : d.closed_at = none)
    (htl : snap.timeline = Except.ok activity)
    (hdue : pastDue env ((activity.filterMap (eventTimestamp env.parseDate)).max?)
        (getMergeTimeoutAndApprovalRequiredCount cfg d.author_association).mergeTimeout =
      Except.ok true)
    (happ : (getApprovalCount snap.reviews).2 ≥
        (getMergeTimeoutAndApprovalRequiredCount cfg d.author_association).requiredApprovalCount)
    (hci : isCiGreen env.workflowName snap.suites snap.runs = Except.ok (some true))
    (hdel : snap.deleteRes = Except.ok ()) :
    ∃ pre, (processOne cfg env snap url).1 =
        pre ++ [Action.deleteTracked url, Action.mergeCall g.owner g.repo g.issue_number] ∧
      countDel url pre = 0 ∧ countMerges pre = 0 := by
  refine ⟨[Action.logDebug "Processing pull-request",
           Action.logDebug "Requirements according to association"]
            ++ (getApprovalCount snap.reviews).1
            ++ [Action.logInfo "is past its due date, will merge"], ?_, ?_, ?_⟩
  · simp [processOne, hparse, hdet, hm, hc, htl, hdue, afterDue, happ, hci, mergeSteps, hdel]
  · have h := approval_no_deletes url snap.reviews
    simp only [countDel, List.countP_append] at h ⊢
    simp [h]
  · have h := approval_no_merges snap.reviews
    simp only [countMerges, List.countP_append] at h ⊢
    simp [h, isMergeCall]

/-- C1 witness: the sample open pull request with two approvals, green CI
and no timeline activity gets deleted from tracking and merged once, in
that order. -/
theorem trackedPR_all_green_single_merge_witness :
    (getApprovalCount sampleSnap.reviews).2 ≥ 2 ∧
    isCiGreen sampleEnv.workflowName sampleSnap.suites sampleSnap.runs = Except.ok (some true) ∧
    ∃ pre, (processOne sampleCfg sampleEnv sampleSnap sampleUrl).1 =
        pre ++ [Action.deleteTracked sampleUrl, Action.mergeCall "ubiquity" "daemon" (some 7)] ∧
      countDel sampleUrl pre = 0 ∧ countMerges pre = 0 :=
  ⟨by decide, rfl,
   trackedPR_all_green_single_merge sampleCfg sampleEnv sampleSnap sampleUrl
     { owner := "ubiquity", repo := "daemon", issue_number := some 7 }
     sampleDetails [] rfl rfl rfl rfl rfl rfl (by decide) rfl rfl⟩

/-- C10: when the tracked-store deletion succeeded and the merge API call
then fails, the deletion stays in effect (the trace holds exactly one
deletion and no action restores the URL), the merge was attempted once,
the error escapes the item and is logged by the per-item handler, and the
batch continues with the remaining tracked pull requests. -/
theorem merge_failure_keeps_removal (cfg : Config) (env : Env) (snap : Snapshot) (url : String)
    (g : IssueParams) (d : PRDetails) (activity : List IssueEvent) (err : String)
    (hparse : parseGitHubUrl url = Except.ok g)
    (hdet : snap.details = Except.ok d)
    (hm : d.merged = false) (hc : d.closed_at = none)
    (htl : snap.timeline = Except.ok activity)
    (hdue : pastDue env ((activity.filterMap (eventTimestamp env.parseDate)).max?)
        (getMergeTimeoutAndApprovalRequiredCount cfg d.author_association).mergeTimeout =
      Except.ok true)
    (happ : (getApprovalCount snap.reviews).2 ≥
        (getMergeTimeoutAndApprovalRequiredCount cfg d.author_association).requiredApprovalCount)
    (hci : isCiGreen env.workflowName snap.suites snap.runs = Except.ok (some true))
    (hdel : snap.deleteRes = Except.ok ())
    (hmerge : snap.mergeRes = Except.error err) :
    countDel url (processOne cfg env snap url).1 = 1 ∧
    countMerges (processOne cfg env snap url).1 = 1 ∧
    (processOne cfg env snap url).2 = some err ∧
    ∀ (snaps : String → Snapshot) (rest : List String), snaps url = snap →
      updatePullRequests cfg env (url :: rest) snaps =
        (processOne cfg env snap url).1
          ++ [Action.logError "Could not process pull-request for auto-merge"]
          ++ (rest.map (processItem cfg env snaps)).flatten := by
  have h2 : (processOne cfg env snap url).2 = some err := by
    simp [processOne, hparse, hdet, hm, hc, htl, hdue, afterDue, happ, hci, mergeSteps, hdel, hmerge]
  have hpo : (processOne cfg env snap url).1 =
      ([Action.logDebug "Processing pull-request",
        Action.logDebug "Requirements according to association"]
         ++ (getApprovalCount snap.reviews).1
         ++ [Action.logInfo "is past its due date, will merge"])
        ++ [Action.deleteTracked url, Action.mergeCall g.owner g.repo g.issue_number] := by
    simp [processOne, hparse, hdet, hm, hc, htl, hdue, afterDue, happ, hci, mergeSteps, hdel]
  refine ⟨?_, ?_, h2, ?_⟩
  · rw [hpo]
    have h := approval_no_deletes url snap.reviews
    simp only [countDel, List.countP_append] at h ⊢
    simp [h]
  · rw [hpo]
    have h := approval_no_merges snap.reviews
    simp only [countMerges, List.countP_append] at h ⊢
    simp [h, isMergeCall]
  · intro snaps rest hsn
    simp [updatePullRequests, processItem, hsn, h2]

/-- C10 witness: the sample pull request whose merge call fails keeps its
deletion, surfaces the error to the per-item handler, and the batch goes
on. -/
theorem merge_failure_keeps_removal_witness :
    countDel sampleUrl (processOne sampleCfg sampleEnv sampleSnapMergeFail sampleUrl).1 = 1 ∧
    (processOne sampleCfg sampleEnv sampleSnapMergeFail sampleUrl).2 = some "merge failed" ∧
    updatePullRequests sampleCfg sampleEnv [sampleUrl] (fun _ => sampleSnapMergeFail) =
      (processOne sampleCfg sampleEnv sampleSnapMergeFail sampleUrl).1
        ++ [Action.logError "Could not process pull-request for auto-merge"]
        ++ (([] : List String).map (processItem sampleCfg sampleEnv (fun _ => sampleSnapMergeFail))).flatten :=
  ⟨(merge_failure_keeps_removal sampleCfg sampleEnv sampleSnapMergeFail sampleUrl
      { owner := "ubiquity", repo := "daemon", issue_number := some 7 }
      sampleDetails [] "merge failed" rfl rfl rfl rfl rfl rfl (by decide) rfl rfl rfl).1,
   (merge_failure_keeps_removal sampleCfg sampleEnv sampleSnapMergeFail sampleUrl
      { owner := "ubiquity", repo := "daemon", issue_number := some 7 }
      sampleDetails [] "merge failed" rfl rfl rfl rfl rfl rfl (by decide) rfl rfl rfl).2.2.1,
   (merge_failure_keeps_removal sampleCfg sampleEnv sampleSnapMergeFail sampleUrl
      { owner := "ubiquity", repo := "daemon", issue_number := some 7 }
      sampleDetails [] "merge failed" rfl rfl rfl rfl rfl rfl (by decide) rfl rfl rfl).2.2.2
     (fun _ => sampleSnapMergeFail) [] rfl⟩

end DaemonMerging
